import Mathlib

/-!
Shallow embedding of the guidance engine of the Skin repository
(`angleTracking.js`): the per-frame image-quality heuristic
`analyzeImageQuality`, the state selector `getNextState`, and the entry
point `getGuidance`, together with the module-level mutable variables
(`currentGuidanceState`, `stateStartTime`, `lastBrightnessValue`,
`lastDistanceEstimate`, `focusScore`) made explicit as an `EngineState`
record threaded through `getGuidance`.

Modelling conventions: JavaScript numbers are embedded as exact
rationals (`ℚ`), canvas pixel bytes as `Fin 256`, timestamps
(`Date.now()`) as integers passed in explicitly, `Math.random()` as an
explicit rational argument, and `null` as `Option.none`.  `Math.round`
is floor of x + 1/2 and `Number.toFixed(2)` produces a decimal string,
as in the JavaScript semantics.
-/

namespace Skin

/-- The eight guidance states of the `STATES` array in the source. -/
inductive GuidanceState
  | center
  | closer
  | further
  | left_side
  | right_side
  | more_light
  | less_reflection
  | hold_steady
  deriving DecidableEq

/-- Source line `const STATES = [...]`: the list of all guidance states. -/
def STATES : List GuidanceState :=
  [GuidanceState.center, GuidanceState.closer, GuidanceState.further,
   GuidanceState.left_side, GuidanceState.right_side, GuidanceState.more_light,
   GuidanceState.less_reflection, GuidanceState.hold_steady]

/-- `const STATE_DURATION = 3000` (milliseconds). -/
def STATE_DURATION : ℤ := 3000

/-- A frame handed to `analyzeImageQuality`: the dimension attributes read by
the source (`videoWidth`, `videoHeight`, `width`, `height`, with `0`
standing for a missing or zero, i.e. falsy, attribute) and the RGBA byte
array produced by drawing the frame on the canvas and calling
`getImageData` (indexed access `data[i]`, each entry a byte). -/
structure Frame where
  videoWidth : ℕ
  videoHeight : ℕ
  width : ℕ
  height : ℕ
  data : ℕ → Fin 256

/-- `canvas.width = imageElement.videoWidth || imageElement.width || 300`. -/
def effWidth (f : Frame) : ℕ :=
  if f.videoWidth ≠ 0 then f.videoWidth
  else if f.width ≠ 0 then f.width
  else 300

/-- `canvas.height = imageElement.videoHeight || imageElement.height || 300`. -/
def effHeight (f : Frame) : ℕ :=
  if f.videoHeight ≠ 0 then f.videoHeight
  else if f.height ≠ 0 then f.height
  else 300

/-- Number of iterations of `for (let i = 0; i < data.length; i += 40)`,
i.e. the ceiling of `data.length / 40`. -/
def numSamples (len : ℕ) : ℕ := (len + 39) / 40

/-- One summand of the brightness loop:
`data[i] * 0.299 + data[i+1] * 0.587 + data[i+2] * 0.114`. -/
def lum (d : ℕ → Fin 256) (i : ℕ) : ℚ :=
  ((d i : ℕ) : ℚ) * (299 / 1000) + ((d (i + 1) : ℕ) : ℚ) * (587 / 1000)
    + ((d (i + 2) : ℕ) : ℚ) * (114 / 1000)

/-- The brightness computation of `analyzeImageQuality`: the sampled sum of
weighted RGB values, divided by `data.length / 40` (exact division, as in
JavaScript) and then by 255.  `data.length = 4 * width * height`. -/
def brightness (f : Frame) : ℚ :=
  (∑ k ∈ Finset.range (numSamples (4 * (effWidth f * effHeight f))),
      lum f.data (40 * k))
    / (((4 * (effWidth f * effHeight f) : ℕ) : ℚ) / 40) / 255

/-- Edge test of the blurriness loop at pixel `(x, y)`:
`Math.abs(c1 - c2) > 20 || Math.abs(c1 - c3) > 20` where `c1` is the byte at
`idx = (y * width + x) * 4`, `c2` the byte at `idx + 4` (pixel to the right)
and `c3` the byte at `idx + width * 4` (pixel below). -/
def isEdge (d : ℕ → Fin 256) (w : ℕ) (x y : ℕ) : Bool :=
  let idx := (y * w + x) * 4
  decide (20 < (((d idx : ℕ) : ℤ) - ((d (idx + 4) : ℕ) : ℤ)).natAbs)
    || decide (20 < (((d idx : ℕ) : ℤ) - ((d (idx + 4 * w) : ℕ) : ℤ)).natAbs)

/-- `edgeCount` of `analyzeImageQuality`: the loops
`for (let y = 1; y < height - 1; y += 2)` and
`for (let x = 1; x < width - 1; x += 2)` visit `y = 1 + 2j` for
`j < (height - 1) / 2` and `x = 1 + 2k` for `k < (width - 1) / 2`. -/
def edgeCount (f : Frame) : ℕ :=
  ((Finset.range ((effHeight f - 1) / 2) ×ˢ Finset.range ((effWidth f - 1) / 2)).filter
    (fun p => isEdge f.data (effWidth f) (1 + 2 * p.2) (1 + 2 * p.1) = true)).card

/-- `const sharpness = Math.min(1, edgeCount / ((width * height) / 10))`. -/
def sharpness (f : Frame) : ℚ :=
  min 1 ((edgeCount f : ℚ) / (((effWidth f * effHeight f : ℕ) : ℚ) / 10))

/-- `const hasFocusedSubject = sharpness > 0.4`. -/
def hasFocusedSubject (f : Frame) : Bool :=
  decide ((0.4 : ℚ) < sharpness f)

/-- `const distanceEstimate = 1 - (edgeCount / ((width * height) / 5))`. -/
def distanceEstimate (f : Frame) : ℚ :=
  1 - (edgeCount f : ℚ) / (((effWidth f * effHeight f : ℕ) : ℚ) / 5)

/-- `focusScore = sharpness * (hasFocusedSubject ? 1.5 : 0.5)`. -/
def focusScore (f : Frame) : ℚ :=
  sharpness f * (if hasFocusedSubject f then 1.5 else 0.5)

/-- The quality-metrics record returned by `analyzeImageQuality`. -/
structure QualityMetrics where
  brightness : ℚ
  sharpness : ℚ
  hasFocusedSubject : Bool
  distanceEstimate : ℚ
  focusScore : ℚ
  deriving DecidableEq

/-- `analyzeImageQuality(imageElement)`: computes the metrics record from the
frame (its assignment to the module variable `focusScore` is made explicit
in `getGuidance` below). -/
def analyzeImageQuality (f : Frame) : QualityMetrics :=
  ⟨brightness f, sharpness f, hasFocusedSubject f, distanceEstimate f, focusScore f⟩

/-- The module-level mutable variables of `angleTracking.js`
(`currentGuidanceState`, `stateStartTime`, `lastBrightnessValue`,
`lastDistanceEstimate`, `focusScore`), threaded explicitly. -/
structure EngineState where
  currentGuidanceState : GuidanceState
  stateStartTime : ℤ
  lastBrightnessValue : Option ℚ
  lastDistanceEstimate : Option ℚ
  focusScore : ℚ
  deriving DecidableEq

/-- Module load time initialisation: state `center`, `stateStartTime`
set to the current time, the two last-value trackers `null`, and
`focusScore = 0`. -/
def initialState (t : ℤ) : EngineState :=
  ⟨GuidanceState.center, t, none, none, 0⟩

/-- `getNextState(metrics)`: reads the module variables `stateStartTime`
and `focusScore` (here `t0` and `fs`), `Date.now()` (here `now`) and
`Math.random()` (here `rnd`), and selects the next state by the priority
cascade of the source. -/
def getNextState (metrics : QualityMetrics) (fs : ℚ) (t0 now : ℤ) (rnd : ℚ) :
    GuidanceState :=
  if STATE_DURATION < now - t0 ∧ (0.7 : ℚ) < fs then GuidanceState.hold_steady
  else if metrics.brightness < 0.4 then GuidanceState.more_light
  else if 0.85 < metrics.brightness then GuidanceState.less_reflection
  else if metrics.distanceEstimate < 0.3 then GuidanceState.further
  else if 0.7 < metrics.distanceEstimate then GuidanceState.closer
  else if metrics.hasFocusedSubject = false then
    (if (0.5 : ℚ) < rnd then GuidanceState.left_side else GuidanceState.right_side)
  else GuidanceState.center

/-- `Math.round(x)` for a real argument: the floor of `x + 1/2`. -/
def jsRound (q : ℚ) : ℤ := ⌊q + 1 / 2⌋

/-- `x.toFixed(2)` for `0 ≤ x`: the decimal string of `x` rounded
half-up to two fractional digits. -/
def jsToFixed2 (q : ℚ) : String :=
  let n := (⌊q * 100 + 1 / 2⌋).toNat
  toString (n / 100) ++ "." ++
    (if n % 100 < 10 then "0" ++ toString (n % 100) else toString (n % 100))

/-- A JavaScript runtime value, distinguishing numbers from strings
(needed because `focusScore.toFixed(2)` yields a string). -/
inductive JSVal
  | num (q : ℚ)
  | str (s : String)
  deriving DecidableEq

/-- The guidance record returned by `getGuidance`. -/
structure GuidanceResult where
  message : String
  state : GuidanceState
  focusScore : JSVal
  progressPercent : ℤ
  readyForCapture : Bool
  deriving DecidableEq

/-- The `switch(currentGuidanceState)` message table of `getGuidance`. -/
def messageFor : GuidanceState → String
  | GuidanceState.center => "Center the skin area in the frame"
  | GuidanceState.closer => "Move camera closer to the skin"
  | GuidanceState.further => "Move camera farther from the skin"
  | GuidanceState.left_side => "Move slightly to the left"
  | GuidanceState.right_side => "Move slightly to the right"
  | GuidanceState.more_light => "Find better lighting"
  | GuidanceState.less_reflection => "Reduce glare or reflection"
  | GuidanceState.hold_steady => "Hold steady for capture"

/-- The state after the transition check of `getGuidance`:
`if (timeInState > STATE_DURATION) currentGuidanceState = getNextState(metrics)`,
where the module variable `focusScore` has just been set to
`metrics.focusScore` by `analyzeImageQuality`. -/
def nextStateAfter (f : Frame) (now : ℤ) (rnd : ℚ) (s : EngineState) :
    GuidanceState :=
  if STATE_DURATION < now - s.stateStartTime then
    getNextState (analyzeImageQuality f) (analyzeImageQuality f).focusScore
      s.stateStartTime now rnd
  else s.currentGuidanceState

/-- `getGuidance(imageElement)`: computes the metrics (which sets the module
variable `focusScore`), performs the dwell-timer transition check (resetting
`stateStartTime` on a transition), records `lastBrightnessValue` and
`lastDistanceEstimate`, and builds the guidance record.  `progressPercent`
is computed from `timeInState = now - stateStartTime` as read BEFORE any
reset of `stateStartTime`, is overridden by `min(100, focusScore * 100)` in
the `hold_steady` branch of the switch, and is passed through `Math.round`;
the `focusScore` field of the record is the string `focusScore.toFixed(2)`. -/
def getGuidance (f : Frame) (now : ℤ) (rnd : ℚ) (s : EngineState) :
    GuidanceResult × EngineState :=
  (⟨messageFor (nextStateAfter f now rnd s),
    nextStateAfter f now rnd s,
    JSVal.str (jsToFixed2 (analyzeImageQuality f).focusScore),
    jsRound (if nextStateAfter f now rnd s = GuidanceState.hold_steady
      then min 100 ((analyzeImageQuality f).focusScore * 100)
      else min 100 (((now - s.stateStartTime : ℤ) : ℚ) / 3000 * 100)),
    decide (nextStateAfter f now rnd s = GuidanceState.hold_steady)
      && decide ((0.8 : ℚ) < (analyzeImageQuality f).focusScore)⟩,
   ⟨nextStateAfter f now rnd s,
    if STATE_DURATION < now - s.stateStartTime then now else s.stateStartTime,
    some (analyzeImageQuality f).brightness,
    some (analyzeImageQuality f).distanceEstimate,
    (analyzeImageQuality f).focusScore⟩)

/-- A sequence of `getGuidance` calls (frame, `Date.now()` reading,
`Math.random()` reading), returning the list of guidance records and the
final module state. -/
def runGuide : List (Frame × ℤ × ℚ) → EngineState → List GuidanceResult × EngineState
  | [], s => ([], s)
  | (f, now, rnd) :: rest, s =>
      ((getGuidance f now rnd s).1 :: (runGuide rest (getGuidance f now rnd s).2).1,
       (runGuide rest (getGuidance f now rnd s).2).2)

/-- A 1 by 1 all-black frame. -/
def zeroFrame1 : Frame := ⟨1, 1, 0, 0, fun _ => 0⟩

/-- A 3 by 3 all-white frame (every byte 255). -/
def whiteFrame3 : Frame := ⟨3, 3, 0, 0, fun _ => 255⟩

/-- A frame with no usable dimensions (all dimension attributes falsy). -/
def nodimFrame : Frame := ⟨0, 0, 0, 0, fun _ => 0⟩

/-- A 10 by 1 all-black frame (pixel count a multiple of 10). -/
def tenFrame : Frame := ⟨10, 1, 0, 0, fun _ => 0⟩

/-- An 11 by 11 frame whose red channel alternates 0 and 255 with the
parity of the pixel column, so every visited grid position is an edge. -/
def stripeFrame11 : Frame :=
  ⟨11, 11, 0, 0, fun i => if i % 4 = 0 ∧ (i / 4) % 11 % 2 = 1 then 255 else 0⟩

/-! Projection lemmas for `getGuidance`, read off from the definition. -/

lemma getGuidance_fst_state (f : Frame) (now : ℤ) (rnd : ℚ) (s : EngineState) :
    (getGuidance f now rnd s).1.state = nextStateAfter f now rnd s := rfl

lemma getGuidance_fst_message (f : Frame) (now : ℤ) (rnd : ℚ) (s : EngineState) :
    (getGuidance f now rnd s).1.message = messageFor (nextStateAfter f now rnd s) := rfl

lemma getGuidance_fst_focusScore (f : Frame) (now : ℤ) (rnd : ℚ) (s : EngineState) :
    (getGuidance f now rnd s).1.focusScore
      = JSVal.str (jsToFixed2 (analyzeImageQuality f).focusScore) := rfl

lemma getGuidance_fst_progress (f : Frame) (now : ℤ) (rnd : ℚ) (s : EngineState) :
    (getGuidance f now rnd s).1.progressPercent
      = jsRound (if nextStateAfter f now rnd s = GuidanceState.hold_steady
          then min 100 ((analyzeImageQuality f).focusScore * 100)
          else min 100 (((now - s.stateStartTime : ℤ) : ℚ) / 3000 * 100)) := rfl

lemma getGuidance_fst_ready (f : Frame) (now : ℤ) (rnd : ℚ) (s : EngineState) :
    (getGuidance f now rnd s).1.readyForCapture
      = (decide (nextStateAfter f now rnd s = GuidanceState.hold_steady)
          && decide ((0.8 : ℚ) < (analyzeImageQuality f).focusScore)) := rfl

lemma getGuidance_snd_state (f : Frame) (now : ℤ) (rnd : ℚ) (s : EngineState) :
    (getGuidance f now rnd s).2.currentGuidanceState = nextStateAfter f now rnd s := rfl

lemma getGuidance_snd_start (f : Frame) (now : ℤ) (rnd : ℚ) (s : EngineState) :
    (getGuidance f now rnd s).2.stateStartTime
      = if STATE_DURATION < now - s.stateStartTime then now else s.stateStartTime := rfl

lemma getGuidance_snd_lastBrightness (f : Frame) (now : ℤ) (rnd : ℚ) (s : EngineState) :
    (getGuidance f now rnd s).2.lastBrightnessValue
      = some (analyzeImageQuality f).brightness := rfl

lemma getGuidance_snd_lastDistance (f : Frame) (now : ℤ) (rnd : ℚ) (s : EngineState) :
    (getGuidance f now rnd s).2.lastDistanceEstimate
      = some (analyzeImageQuality f).distanceEstimate := rfl

lemma getGuidance_snd_focusScore (f : Frame) (now : ℤ) (rnd : ℚ) (s : EngineState) :
    (getGuidance f now rnd s).2.focusScore = (analyzeImageQuality f).focusScore := rfl

/-! Range lemmas for the metric computations. -/

lemma effWidth_pos (f : Frame) : 0 < effWidth f := by
  unfold effWidth
  split
  · exact Nat.pos_of_ne_zero ‹_›
  · split
    · exact Nat.pos_of_ne_zero ‹_›
    · norm_num

lemma effHeight_pos (f : Frame) : 0 < effHeight f := by
  unfold effHeight
  split
  · exact Nat.pos_of_ne_zero ‹_›
  · split
    · exact Nat.pos_of_ne_zero ‹_›
    · norm_num

lemma byte_cast_nonneg (d : ℕ → Fin 256) (i : ℕ) : (0 : ℚ) ≤ ((d i : ℕ) : ℚ) := by
  exact_mod_cast Nat.zero_le _

lemma byte_cast_le (d : ℕ → Fin 256) (i : ℕ) : ((d i : ℕ) : ℚ) ≤ 255 := by
  have h : (d i : ℕ) ≤ 255 := Nat.lt_succ_iff.mp (d i).isLt
  exact_mod_cast h

lemma lum_nonneg (d : ℕ → Fin 256) (i : ℕ) : 0 ≤ lum d i := by
  unfold lum
  have h1 := byte_cast_nonneg d i
  have h2 := byte_cast_nonneg d (i + 1)
  have h3 := byte_cast_nonneg d (i + 2)
  nlinarith

lemma lum_le (d : ℕ → Fin 256) (i : ℕ) : lum d i ≤ 255 := by
  unfold lum
  have h1 := byte_cast_le d i
  have h2 := byte_cast_le d (i + 1)
  have h3 := byte_cast_le d (i + 2)
  nlinarith

lemma brightness_nonneg (f : Frame) : 0 ≤ brightness f := by
  unfold brightness
  have hs : 0 ≤ ∑ k ∈ Finset.range (numSamples (4 * (effWidth f * effHeight f))),
      lum f.data (40 * k) :=
    Finset.sum_nonneg fun i _ => lum_nonneg _ _
  have hd : (0 : ℚ) ≤ ((4 * (effWidth f * effHeight f) : ℕ) : ℚ) / 40 := by positivity
  exact div_nonneg (div_nonneg hs hd) (by norm_num)

lemma brightness_le_one (f : Frame) (h : 10 ∣ effWidth f * effHeight f) :
    brightness f ≤ 1 := by
  obtain ⟨m, hm⟩ := h
  have hm1 : 1 ≤ m := by
    rcases Nat.eq_zero_or_pos m with h0 | h1
    · exfalso
      have := Nat.mul_pos (effWidth_pos f) (effHeight_pos f)
      omega
    · exact h1
  unfold brightness
  rw [hm]
  have hns : numSamples (4 * (10 * m)) = m := by unfold numSamples; omega
  rw [hns]
  have hsum : (∑ k ∈ Finset.range m, lum f.data (40 * k)) ≤ (m : ℚ) * 255 := by
    calc (∑ k ∈ Finset.range m, lum f.data (40 * k))
        ≤ (Finset.range m).card • (255 : ℚ) :=
          Finset.sum_le_card_nsmul _ _ _ fun i _ => lum_le _ _
      _ = (m : ℚ) * 255 := by rw [Finset.card_range, nsmul_eq_mul]
  have hcast : ((4 * (10 * m) : ℕ) : ℚ) = 40 * (m : ℚ) := by push_cast; ring
  have hmq : (1 : ℚ) ≤ (m : ℚ) := by exact_mod_cast hm1
  rw [hcast, div_div]
  rw [div_le_one (by nlinarith)]
  have h40 : (40 : ℚ) * (m : ℚ) / 40 * 255 = (m : ℚ) * 255 := by ring
  rw [h40]
  exact hsum

lemma sharpness_nonneg (f : Frame) : 0 ≤ sharpness f := by
  unfold sharpness
  have : (0 : ℚ) ≤ (edgeCount f : ℚ) / (((effWidth f * effHeight f : ℕ) : ℚ) / 10) := by
    positivity
  exact le_min (by norm_num) this

lemma sharpness_le_one (f : Frame) : sharpness f ≤ 1 := min_le_left _ _

lemma focusScore_nonneg (f : Frame) : 0 ≤ focusScore f := by
  unfold focusScore
  have h := sharpness_nonneg f
  split <;> nlinarith

lemma focusScore_le (f : Frame) : focusScore f ≤ 1.5 := by
  unfold focusScore
  have h1 := sharpness_nonneg f
  have h2 := sharpness_le_one f
  split <;> nlinarith

/-! Concrete evaluations on the test frames. -/

lemma zeroFrame1_data (i : ℕ) : (zeroFrame1.data i : ℕ) = 0 := rfl

lemma brightness_zeroFrame1 : brightness zeroFrame1 = 0 := by
  unfold brightness
  rw [show effWidth zeroFrame1 = 1 from rfl, show effHeight zeroFrame1 = 1 from rfl,
    show numSamples (4 * (1 * 1)) = 1 from rfl, Finset.sum_range_one]
  norm_num [lum, zeroFrame1_data]

lemma edgeCount_zeroFrame1 : edgeCount zeroFrame1 = 0 := rfl

lemma sharpness_zeroFrame1 : sharpness zeroFrame1 = 0 := by
  unfold sharpness
  rw [edgeCount_zeroFrame1,
    show effWidth zeroFrame1 = 1 from rfl, show effHeight zeroFrame1 = 1 from rfl]
  norm_num

lemma metrics_zeroFrame1 : analyzeImageQuality zeroFrame1 = ⟨0, 0, false, 1, 0⟩ := by
  unfold analyzeImageQuality
  rw [QualityMetrics.mk.injEq]
  refine ⟨brightness_zeroFrame1, sharpness_zeroFrame1, ?_, ?_, ?_⟩
  · unfold hasFocusedSubject
    rw [sharpness_zeroFrame1]
    norm_num
  · unfold distanceEstimate
    rw [edgeCount_zeroFrame1,
      show effWidth zeroFrame1 = 1 from rfl, show effHeight zeroFrame1 = 1 from rfl]
    norm_num
  · unfold focusScore
    rw [sharpness_zeroFrame1]
    norm_num

lemma whiteFrame3_data (i : ℕ) : (whiteFrame3.data i : ℕ) = 255 := rfl

lemma brightness_whiteFrame3 : brightness whiteFrame3 = 10 / 9 := by
  unfold brightness
  rw [show effWidth whiteFrame3 = 3 from rfl, show effHeight whiteFrame3 = 3 from rfl,
    show numSamples (4 * (3 * 3)) = 1 from rfl, Finset.sum_range_one]
  norm_num [lum, whiteFrame3_data]

lemma edgeCount_stripeFrame11 : edgeCount stripeFrame11 = 25 := by decide

lemma distanceEstimate_stripeFrame11 : distanceEstimate stripeFrame11 = -4 / 121 := by
  unfold distanceEstimate
  rw [edgeCount_stripeFrame11,
    show effWidth stripeFrame11 = 11 from rfl, show effHeight stripeFrame11 = 11 from rfl]
  norm_num

lemma nextStateAfter_zeroFrame1_4000 :
    nextStateAfter zeroFrame1 4000 0 (initialState 0) = GuidanceState.more_light := by
  unfold nextStateAfter
  rw [show (initialState 0).stateStartTime = 0 from rfl,
    show (initialState 0).currentGuidanceState = GuidanceState.center from rfl]
  rw [if_pos (by decide : STATE_DURATION < (4000 : ℤ) - 0)]
  rw [metrics_zeroFrame1]
  unfold getNextState
  rw [if_neg (by norm_num : ¬ (STATE_DURATION < (4000 : ℤ) - 0 ∧
    (0.7 : ℚ) < (⟨0, 0, false, 1, 0⟩ : QualityMetrics).focusScore))]
  rw [if_pos (by norm_num : (⟨0, 0, false, 1, 0⟩ : QualityMetrics).brightness < 0.4)]

lemma startTime_zeroFrame1_4000 :
    (getGuidance zeroFrame1 4000 0 (initialState 0)).2.stateStartTime = 4000 := by
  rw [getGuidance_snd_start]
  rw [show (initialState 0).stateStartTime = 0 from rfl]
  rw [if_pos (by decide : STATE_DURATION < (4000 : ℤ) - 0)]

lemma progress_zeroFrame1_4000 :
    (getGuidance zeroFrame1 4000 0 (initialState 0)).1.progressPercent = 100 := by
  rw [getGuidance_fst_progress, nextStateAfter_zeroFrame1_4000]
  rw [if_neg (by simp : ¬ (GuidanceState.more_light = GuidanceState.hold_steady))]
  rw [show (initialState 0).stateStartTime = 0 from rfl]
  unfold jsRound
  norm_num

/-- C1: for every call to `getGuidance`, the returned `readyForCapture` flag is
true if and only if the guidance state after the call is `hold_steady` and the
stored `focusScore` module variable exceeds 0.8; for every other state it is
false regardless of the focus score. -/
theorem getGuidance_readyForCapture_iff (f : Frame) (now : ℤ) (rnd : ℚ) (s : EngineState) :
    (getGuidance f now rnd s).1.readyForCapture = true ↔
      ((getGuidance f now rnd s).2.currentGuidanceState = GuidanceState.hold_steady ∧
        (0.8 : ℚ) < (getGuidance f now rnd s).2.focusScore) := by
  rw [getGuidance_fst_ready, getGuidance_snd_state, getGuidance_snd_focusScore]
  simp only [Bool.and_eq_true, decide_eq_true_eq]

/-- Auxiliary step for C2: a single `getGuidance` call within the dwell window
returns the stored state and leaves `currentGuidanceState` and
`stateStartTime` unchanged. -/
lemma getGuidance_stable (f : Frame) (now : ℤ) (rnd : ℚ) (s : EngineState)
    (h : now - s.stateStartTime ≤ STATE_DURATION) :
    (getGuidance f now rnd s).1.state = s.currentGuidanceState ∧
    (getGuidance f now rnd s).2.currentGuidanceState = s.currentGuidanceState ∧
    (getGuidance f now rnd s).2.stateStartTime = s.stateStartTime := by
  have hn : ¬ STATE_DURATION < now - s.stateStartTime := not_lt.mpr h
  rw [getGuidance_fst_state, getGuidance_snd_state, getGuidance_snd_start]
  unfold nextStateAfter
  rw [if_neg hn, if_neg hn]
  exact ⟨rfl, rfl, rfl⟩

/-- C2: the guidance state changes only after the 3000 ms dwell duration has
elapsed: along any sequence of `getGuidance` calls whose `Date.now()` readings
satisfy `now - stateStartTime <= 3000` (`stateStartTime` being unchanged by
such calls), every call reports the initial state. -/
theorem getGuidance_dwell_stable (calls : List (Frame × ℤ × ℚ)) (s : EngineState)
    (h : ∀ c ∈ calls, c.2.1 - s.stateStartTime ≤ STATE_DURATION) :
    (∀ r ∈ (runGuide calls s).1, r.state = s.currentGuidanceState) ∧
    (runGuide calls s).2.currentGuidanceState = s.currentGuidanceState := by
  induction calls generalizing s with
  | nil => exact ⟨fun r hr => absurd hr (by simp [runGuide]), rfl⟩
  | cons c rest ih =>
    obtain ⟨f, now, rnd⟩ := c
    have hc : now - s.stateStartTime ≤ STATE_DURATION := h _ (List.mem_cons_self _ _)
    have hs := getGuidance_stable f now rnd s hc
    have hrest : ∀ c2 ∈ rest,
        c2.2.1 - (getGuidance f now rnd s).2.stateStartTime ≤ STATE_DURATION := by
      intro c2 hc2
      rw [hs.2.2]
      exact h _ (List.mem_cons_of_mem _ hc2)
    have ih2 := ih (getGuidance f now rnd s).2 hrest
    constructor
    · intro r hr
      rw [show runGuide ((f, now, rnd) :: rest) s =
        ((getGuidance f now rnd s).1 :: (runGuide rest (getGuidance f now rnd s).2).1,
         (runGuide rest (getGuidance f now rnd s).2).2) from rfl] at hr
      rcases List.mem_cons.mp hr with h1 | h2
      · rw [h1]
        exact hs.1
      · exact (ih2.1 r h2).trans hs.2.1
    · rw [show (runGuide ((f, now, rnd) :: rest) s).2 =
        (runGuide rest (getGuidance f now rnd s).2).2 from rfl]
      exact ih2.2.trans hs.2.1

/-- Two guidance polls five and ten milliseconds after state entry. -/
def guideCalls : List (Frame × ℤ × ℚ) := [(zeroFrame1, 5, 0), (zeroFrame1, 10, 1)]

/-- Witness for C2 at a concrete call sequence inside the dwell window. -/
theorem getGuidance_dwell_stable_witness :
    (∀ r ∈ (runGuide guideCalls (initialState 0)).1,
      r.state = (initialState 0).currentGuidanceState) ∧
    (runGuide guideCalls (initialState 0)).2.currentGuidanceState
      = (initialState 0).currentGuidanceState :=
  getGuidance_dwell_stable guideCalls (initialState 0) (by decide)

/-- C3: with the dwell timer elapsed, `getNextState` selects the new state in
the fixed priority order of the source (hold_steady on focus, then the
brightness rules, then the distance rules, then the randomised side
suggestion, then center); in particular brightness 0.2 together with distance
estimate 0.9 yields `more_light`, the brightness rule beating the distance
rule. -/
theorem getNextState_priority (m : QualityMetrics) (fs : ℚ) (t0 now : ℤ) (rnd : ℚ)
    (hd : STATE_DURATION < now - t0) :
    ((0.7 : ℚ) < fs → getNextState m fs t0 now rnd = GuidanceState.hold_steady) ∧
    (fs ≤ 0.7 → m.brightness < 0.4 →
      getNextState m fs t0 now rnd = GuidanceState.more_light) ∧
    (fs ≤ 0.7 → ¬ m.brightness < 0.4 → 0.85 < m.brightness →
      getNextState m fs t0 now rnd = GuidanceState.less_reflection) ∧
    (fs ≤ 0.7 → ¬ m.brightness < 0.4 → ¬ 0.85 < m.brightness →
      m.distanceEstimate < 0.3 →
      getNextState m fs t0 now rnd = GuidanceState.further) ∧
    (fs ≤ 0.7 → ¬ m.brightness < 0.4 → ¬ 0.85 < m.brightness →
      ¬ m.distanceEstimate < 0.3 → 0.7 < m.distanceEstimate →
      getNextState m fs t0 now rnd = GuidanceState.closer) ∧
    (fs ≤ 0.7 → ¬ m.brightness < 0.4 → ¬ 0.85 < m.brightness →
      ¬ m.distanceEstimate < 0.3 → ¬ 0.7 < m.distanceEstimate →
      m.hasFocusedSubject = false →
      (getNextState m fs t0 now rnd = GuidanceState.left_side ∨
        getNextState m fs t0 now rnd = GuidanceState.right_side)) ∧
    (fs ≤ 0.7 → ¬ m.brightness < 0.4 → ¬ 0.85 < m.brightness →
      ¬ m.distanceEstimate < 0.3 → ¬ 0.7 < m.distanceEstimate →
      m.hasFocusedSubject = true →
      getNextState m fs t0 now rnd = GuidanceState.center) ∧
    (fs ≤ 0.7 → m.brightness = 0.2 → m.distanceEstimate = 0.9 →
      getNextState m fs t0 now rnd = GuidanceState.more_light) := by
  unfold getNextState
  refine ⟨?_, ?_, ?_, ?_, ?_, ?_, ?_, ?_⟩
  · intro h1
    rw [if_pos ⟨hd, h1⟩]
  · intro h1 h2
    rw [if_neg fun hc => absurd hc.2 (not_lt.mpr h1), if_pos h2]
  · intro h1 h2 h3
    rw [if_neg fun hc => absurd hc.2 (not_lt.mpr h1), if_neg h2, if_pos h3]
  · intro h1 h2 h3 h4
    rw [if_neg fun hc => absurd hc.2 (not_lt.mpr h1), if_neg h2, if_neg h3, if_pos h4]
  · intro h1 h2 h3 h4 h5
    rw [if_neg fun hc => absurd hc.2 (not_lt.mpr h1), if_neg h2, if_neg h3, if_neg h4,
      if_pos h5]
  · intro h1 h2 h3 h4 h5 h6
    rw [if_neg fun hc => absurd hc.2 (not_lt.mpr h1), if_neg h2, if_neg h3, if_neg h4,
      if_neg h5, if_pos h6]
    by_cases hr : (0.5 : ℚ) < rnd
    · left
      rw [if_pos hr]
    · right
      rw [if_neg hr]
  · intro h1 h2 h3 h4 h5 h6
    rw [if_neg fun hc => absurd hc.2 (not_lt.mpr h1), if_neg h2, if_neg h3, if_neg h4,
      if_neg h5, if_neg (by rw [h6]; exact fun hc => Bool.noConfusion hc)]
  · intro h1 h2 h3
    rw [if_neg fun hc => absurd hc.2 (not_lt.mpr h1), if_pos (by rw [h2]; norm_num)]

/-- Metrics with brightness 0.2 and distance estimate 0.9 for the C3 witness. -/
def lowLightMetrics : QualityMetrics := ⟨0.2, 0.1, false, 0.9, 0.15⟩

/-- Witness for C3: the concrete priority scenario, brightness 0.2 and
distance estimate 0.9 after dwell expiry, resolves to `more_light`. -/
theorem getNextState_priority_witness :
    getNextState lowLightMetrics 0.15 0 4000 0 = GuidanceState.more_light :=
  (getNextState_priority lowLightMetrics 0.15 0 4000 0 (by decide)).2.2.2.2.2.2.2
    (by norm_num) (by norm_num [lowLightMetrics]) (by norm_num [lowLightMetrics])

/-- C4 (amended): the returned `progressPercent` is the rounded value of
`min(100, 100 * (now - stateStartTime) / 3000)` with `stateStartTime` as read
at the START of the call, before any reset, when the resulting state is not
`hold_steady`; and the rounded value of `min(100, 100 * focusScore)` when it
is `hold_steady`. -/
theorem getGuidance_progressPercent (f : Frame) (now : ℤ) (rnd : ℚ) (s : EngineState) :
    (getGuidance f now rnd s).1.progressPercent =
      if (getGuidance f now rnd s).1.state = GuidanceState.hold_steady
      then jsRound (min 100 (100 * (analyzeImageQuality f).focusScore))
      else jsRound (min 100 (100 * ((now - s.stateStartTime : ℤ) : ℚ) / 3000)) := by
  rw [getGuidance_fst_progress, getGuidance_fst_state]
  split_ifs with h
  · congr 2
    ring
  · congr 2
    ring

/-- Counterexample for C4 as stated: on a transition tick (dwell elapsed,
new state `more_light`), `stateStartTime` is reset to `now`, yet the
returned `progressPercent` is 100, not
`min(100, 100 * (now - stateStartTime) / 3000) = 0` computed from the
updated `stateStartTime`. -/
theorem getGuidance_progress_post_reset_cex :
    (getGuidance zeroFrame1 4000 0 (initialState 0)).1.state ≠ GuidanceState.hold_steady ∧
    (getGuidance zeroFrame1 4000 0 (initialState 0)).1.progressPercent = 100 ∧
    ¬ (((getGuidance zeroFrame1 4000 0 (initialState 0)).1.progressPercent : ℚ) =
        min 100 (100 * ((4000 -
          (getGuidance zeroFrame1 4000 0 (initialState 0)).2.stateStartTime : ℤ) : ℚ)
          / 3000)) := by
  refine ⟨?_, progress_zeroFrame1_4000, ?_⟩
  · rw [getGuidance_fst_state, nextStateAfter_zeroFrame1_4000]
    simp
  · rw [progress_zeroFrame1_4000, startTime_zeroFrame1_4000]
    norm_num

/-- `Math.round` of a value that is at least 0 is at least 0. -/
lemma jsRound_nonneg (q : ℚ) (h : 0 ≤ q) : 0 ≤ jsRound q := by
  unfold jsRound
  exact Int.le_floor.mpr (by push_cast; linarith)

/-- `Math.round` of a value that is at most 100 is at most 100. -/
lemma jsRound_le_100 (q : ℚ) (h : q ≤ 100) : jsRound q ≤ 100 := by
  unfold jsRound
  have h2 : ⌊q + 1 / 2⌋ < 101 := Int.floor_lt.mpr (by push_cast; linarith)
  omega

/-- C5 (amended): every guidance record has `message` the fixed text for its
state, `state` a member of the `STATES` enumeration, `focusScore` a STRING
(the numeric score formatted by `toFixed(2)`), and, provided the clock did
not run backwards since state entry, `progressPercent` an integer between 0
and 100; `readyForCapture` is a boolean by construction. -/
theorem getGuidance_record_fields (f : Frame) (now : ℤ) (rnd : ℚ) (s : EngineState)
    (h : s.stateStartTime ≤ now) :
    (getGuidance f now rnd s).1.message
        = messageFor ((getGuidance f now rnd s).1.state) ∧
    (getGuidance f now rnd s).1.state ∈ STATES ∧
    (getGuidance f now rnd s).1.focusScore
        = JSVal.str (jsToFixed2 (analyzeImageQuality f).focusScore) ∧
    0 ≤ (getGuidance f now rnd s).1.progressPercent ∧
    (getGuidance f now rnd s).1.progressPercent ≤ 100 := by
  refine ⟨rfl, ?_, rfl, ?_, ?_⟩
  · rw [getGuidance_fst_state]
    cases nextStateAfter f now rnd s <;> simp [STATES]
  · rw [getGuidance_fst_progress]
    apply jsRound_nonneg
    split_ifs with hh
    · exact le_min (by norm_num) (mul_nonneg (focusScore_nonneg f) (by norm_num))
    · refine le_min (by norm_num) ?_
      have hti : (0 : ℚ) ≤ ((now - s.stateStartTime : ℤ) : ℚ) := by
        have h0 : (0 : ℤ) ≤ now - s.stateStartTime := by omega
        exact_mod_cast h0
      exact mul_nonneg (div_nonneg hti (by norm_num)) (by norm_num)
  · rw [getGuidance_fst_progress]
    apply jsRound_le_100
    split_ifs <;> exact min_le_left _ _

/-- Witness for C5 (amended) at a concrete call. -/
theorem getGuidance_record_fields_witness :
    (getGuidance zeroFrame1 5 0 (initialState 0)).1.message
        = messageFor ((getGuidance zeroFrame1 5 0 (initialState 0)).1.state) ∧
    (getGuidance zeroFrame1 5 0 (initialState 0)).1.state ∈ STATES ∧
    (getGuidance zeroFrame1 5 0 (initialState 0)).1.focusScore
        = JSVal.str (jsToFixed2 (analyzeImageQuality zeroFrame1).focusScore) ∧
    0 ≤ (getGuidance zeroFrame1 5 0 (initialState 0)).1.progressPercent ∧
    (getGuidance zeroFrame1 5 0 (initialState 0)).1.progressPercent ≤ 100 :=
  getGuidance_record_fields zeroFrame1 5 0 (initialState 0) (by decide)

/-- Counterexample for C5 as stated: the `focusScore` field of the returned
record is not a number — the source returns `focusScore.toFixed(2)`, which
is a string. -/
theorem getGuidance_focusScore_not_number_cex :
    ¬ ∃ q : ℚ, (getGuidance zeroFrame1 5 0 (initialState 0)).1.focusScore
        = JSVal.num q := by
  rintro ⟨q, hq⟩
  rw [getGuidance_fst_focusScore] at hq
  exact JSVal.noConfusion hq

/-- C6 (amended): for every frame, `sharpness` lies in [0,1] and `focusScore`
in [0, 1.5]; `brightness` is nonnegative, and is at most 1 whenever the pixel
count `width * height` is a multiple of 10 (in particular for the 300 by 300
default) — but not in general. -/
theorem analyzeImageQuality_bounds (f : Frame) :
    0 ≤ (analyzeImageQuality f).brightness ∧
    0 ≤ (analyzeImageQuality f).sharpness ∧
    (analyzeImageQuality f).sharpness ≤ 1 ∧
    0 ≤ (analyzeImageQuality f).focusScore ∧
    (analyzeImageQuality f).focusScore ≤ 1.5 ∧
    (10 ∣ effWidth f * effHeight f → (analyzeImageQuality f).brightness ≤ 1) :=
  ⟨brightness_nonneg f, sharpness_nonneg f, sharpness_le_one f, focusScore_nonneg f,
    focusScore_le f, fun h => brightness_le_one f h⟩

/-- Witness for C6 (amended): on the 10 by 1 black frame the brightness
bounds hold, the divisibility side condition being discharged concretely. -/
theorem analyzeImageQuality_bounds_witness :
    0 ≤ (analyzeImageQuality tenFrame).brightness ∧
    (analyzeImageQuality tenFrame).brightness ≤ 1 :=
  ⟨(analyzeImageQuality_bounds tenFrame).1,
    (analyzeImageQuality_bounds tenFrame).2.2.2.2.2 (by decide)⟩

/-- Counterexample for C6 as stated: on the 3 by 3 all-white frame (9 pixels,
not a multiple of 10), the sampling loop runs once while the divisor is
`data.length / 40 = 0.9`, so brightness evaluates to 10/9, outside [0,1]. -/
theorem brightness_above_one_cex : 1 < (analyzeImageQuality whiteFrame3).brightness := by
  rw [show (analyzeImageQuality whiteFrame3).brightness = brightness whiteFrame3 from rfl,
    brightness_whiteFrame3]
  norm_num

/-- The edge count depends on the frame only through the effective canvas
size and the pixel data. -/
lemma edgeCount_congr (f g : Frame) (hw : effWidth f = effWidth g)
    (hh : effHeight f = effHeight g) (hd : f.data = g.data) :
    edgeCount f = edgeCount g := by
  unfold edgeCount
  rw [hw, hh, hd]

/-- The brightness depends on the frame only through the effective canvas
size and the pixel data. -/
lemma brightness_congr (f g : Frame) (hw : effWidth f = effWidth g)
    (hh : effHeight f = effHeight g) (hd : f.data = g.data) :
    brightness f = brightness g := by
  unfold brightness
  rw [hw, hh, hd]

/-- The sharpness depends on the frame only through the effective canvas
size and the pixel data. -/
lemma sharpness_congr (f g : Frame) (hw : effWidth f = effWidth g)
    (hh : effHeight f = effHeight g) (hd : f.data = g.data) :
    sharpness f = sharpness g := by
  unfold sharpness
  rw [edgeCount_congr f g hw hh hd, hw, hh]

/-- The subject detector depends on the frame only through the effective
canvas size and the pixel data. -/
lemma hasFocusedSubject_congr (f g : Frame) (hw : effWidth f = effWidth g)
    (hh : effHeight f = effHeight g) (hd : f.data = g.data) :
    hasFocusedSubject f = hasFocusedSubject g := by
  unfold hasFocusedSubject
  rw [sharpness_congr f g hw hh hd]

/-- The metrics computation depends on the frame only through the effective
canvas size and the pixel data. -/
lemma analyzeImageQuality_congr (f g : Frame) (hw : effWidth f = effWidth g)
    (hh : effHeight f = effHeight g) (hd : f.data = g.data) :
    analyzeImageQuality f = analyzeImageQuality g := by
  unfold analyzeImageQuality hasFocusedSubject distanceEstimate focusScore
  rw [brightness_congr f g hw hh hd, sharpness_congr f g hw hh hd,
    edgeCount_congr f g hw hh hd, hw, hh,
    hasFocusedSubject_congr f g hw hh hd]

/-- C7: no operation of the engine raises an error (all embedded operations
are total functions); in particular, a frame with zero or unavailable
width and height attributes is processed with the default 300 by 300 canvas
and yields the same metrics record as the same pixel data with explicit
300 by 300 dimensions. -/
theorem analyzeImageQuality_default_size (f : Frame)
    (h1 : f.videoWidth = 0) (h2 : f.width = 0) (h3 : f.videoHeight = 0)
    (h4 : f.height = 0) :
    effWidth f = 300 ∧ effHeight f = 300 ∧
    analyzeImageQuality f
      = analyzeImageQuality ⟨300, 300, f.width, f.height, f.data⟩ := by
  have hw : effWidth f = 300 := by simp [effWidth, h1, h2]
  have hh : effHeight f = 300 := by simp [effHeight, h3, h4]
  refine ⟨hw, hh, analyzeImageQuality_congr _ _ ?_ ?_ rfl⟩
  · rw [hw]
    simp [effWidth]
  · rw [hh]
    simp [effHeight]

/-- Witness for C7 on the frame with all dimension attributes missing. -/
theorem analyzeImageQuality_default_size_witness :
    effWidth nodimFrame = 300 ∧ effHeight nodimFrame = 300 ∧
    analyzeImageQuality nodimFrame
      = analyzeImageQuality ⟨300, 300, nodimFrame.width, nodimFrame.height,
          nodimFrame.data⟩ :=
  analyzeImageQuality_default_size nodimFrame rfl rfl rfl rfl

/-- C8 (amended): a `getGuidance` call mutates exactly the five module
variables — `currentGuidanceState`, `stateStartTime` (reset to `now` only on
a dwell-expiry transition), `lastBrightnessValue`, `lastDistanceEstimate` and
`focusScore` — and performs no other effect (the embedding is a pure function
of the frame, the clock, the random sample and this state record). -/
theorem getGuidance_state_effect (f : Frame) (now : ℤ) (rnd : ℚ) (s : EngineState) :
    (getGuidance f now rnd s).2.currentGuidanceState = nextStateAfter f now rnd s ∧
    (getGuidance f now rnd s).2.stateStartTime
        = (if STATE_DURATION < now - s.stateStartTime then now else s.stateStartTime) ∧
    (getGuidance f now rnd s).2.lastBrightnessValue
        = some (analyzeImageQuality f).brightness ∧
    (getGuidance f now rnd s).2.lastDistanceEstimate
        = some (analyzeImageQuality f).distanceEstimate ∧
    (getGuidance f now rnd s).2.focusScore = (analyzeImageQuality f).focusScore :=
  ⟨rfl, rfl, rfl, rfl, rfl⟩

/-- Counterexample for C8 as stated: `getGuidance` also writes the module
variables `lastBrightnessValue` and `lastDistanceEstimate`, which are not
among the three variables the claim allows. -/
theorem getGuidance_writes_tracking_cex :
    ¬ ((getGuidance zeroFrame1 5 0 (initialState 0)).2.lastBrightnessValue
          = (initialState 0).lastBrightnessValue ∧
        (getGuidance zeroFrame1 5 0 (initialState 0)).2.lastDistanceEstimate
          = (initialState 0).lastDistanceEstimate) := by
  rintro ⟨hb, _⟩
  rw [getGuidance_snd_lastBrightness,
    show (initialState 0).lastBrightnessValue = none from rfl] at hb
  exact Option.noConfusion hb

/-- C9: `distanceEstimate` is exactly `1 - edgeCount / ((width * height) / 5)`
with no clamping, and on a concrete frame (11 by 11, red channel alternating
by column) it leaves [0,1]: every sampled grid cell is an edge, giving
`1 - 25 / (121 / 5) = -4/121 < 0`. -/
theorem distanceEstimate_unclamped :
    (∀ f : Frame, (analyzeImageQuality f).distanceEstimate
        = 1 - (edgeCount f : ℚ) / (((effWidth f * effHeight f : ℕ) : ℚ) / 5)) ∧
    (analyzeImageQuality stripeFrame11).distanceEstimate < 0 := by
  refine ⟨fun f => rfl, ?_⟩
  rw [show (analyzeImageQuality stripeFrame11).distanceEstimate
      = distanceEstimate stripeFrame11 from rfl, distanceEstimate_stripeFrame11]
  norm_num

/-- C10: for every frame the distance estimate is at most 1, because the edge
count is nonnegative and the divisor `(width * height) / 5` is positive. -/
theorem distanceEstimate_le_one (f : Frame) :
    (analyzeImageQuality f).distanceEstimate ≤ 1 := by
  show distanceEstimate f ≤ 1
  unfold distanceEstimate
  have h : (0 : ℚ) ≤ (edgeCount f : ℚ) / (((effWidth f * effHeight f : ℕ) : ℚ) / 5) := by
    positivity
  linarith

end Skin

